import Mathlib

/-!
Shallow embedding of the ESP-NOW gnrc netif adapter: the outbound frame
encoder `_send` and the inbound frame decoder `_recv` from the gnrc
esp-now netif glue code, together with the frame layout constants from
esp_now_netdev.h.  Machine integers are modelled as `Nat` with explicit
truncation where the source casts; the pkt-buffer allocator and the
transport driver are modelled as oracles (booleans / an integer result);
release of a pktsnip chain is tracked as a boolean effect flag.
-/

/-- ESP_NOW_MAX_SIZE_RAW: maximum raw ESP-NOW packet size, headers included. -/
def ESP_NOW_MAX_SIZE_RAW : Nat := 250

/-- ESP_NOW_ADDR_LEN = ETHERNET_ADDR_LEN: length of ESP-NOW hardware addresses. -/
def ESP_NOW_ADDR_LEN : Nat := 6

/-- ESP_NOW_HEADER_LENGTH = sizeof(esp_now_pkt_hdr_t): one flags byte. -/
def ESP_NOW_HEADER_LENGTH : Nat := 1

/-- ESP_NOW_MAX_SIZE: maximum payload size (raw size minus header). -/
def ESP_NOW_MAX_SIZE : Nat := ESP_NOW_MAX_SIZE_RAW - ESP_NOW_HEADER_LENGTH

/-- Broadcast flag bit of gnrc_netif_hdr_t (GNRC_NETIF_HDR_FLAGS_BROADCAST). -/
def GNRC_NETIF_HDR_FLAGS_BROADCAST : Nat := 0x80

/-- Multicast flag bit of gnrc_netif_hdr_t (GNRC_NETIF_HDR_FLAGS_MULTICAST). -/
def GNRC_NETIF_HDR_FLAGS_MULTICAST : Nat := 0x40

/-- The errno value EBADMSG returned (negated) by the encoder on rejection. -/
def EBADMSG : Int := 74

/-- gnrc_nettype_t: the gnrc network-layer type enumeration, restricted to
the constructors this adapter distinguishes plus an opaque remainder. -/
inductive GnrcNettype where
  | undef
  | netif
  | sixlowpan
  | other (n : Nat)
deriving DecidableEq, Repr

/-- gnrc_netif_hdr_t together with the variable-length l2 address fields
that follow it in the snip's data region.  `_send` reads `flags`,
`dst_l2addr_len` and the destination address bytes; `_recv` builds one. -/
structure GnrcNetifHdr where
  src_l2addr_len : Nat
  dst_l2addr_len : Nat
  flags : Nat
  if_pid : Int
  src_addr : List Nat
  dst_addr : List Nat
deriving DecidableEq, Repr

/-- One payload pktsnip of the outbound chain (everything after the netif
header snip): its gnrc type and its data bytes (`size` is the length). -/
structure PayloadSnip where
  type : GnrcNettype
  data : List Nat
deriving DecidableEq, Repr

/-- The outbound chain handed to `_send`: the first snip (its type tag and
the netif header its data is cast to) and the successor chain `pkt->next`. -/
structure OutPkt where
  type : GnrcNettype
  hdr : GnrcNetifHdr
  payloads : List PayloadSnip
deriving DecidableEq, Repr

/-- The esp_now_pkt_t the encoder hands to the transport driver: the
resolved destination `mac`, the header flags byte (protocol tag) of
`buf.hdr`, the occupied bytes of `buf.data`, and the declared `len`. -/
structure SentFrame where
  mac : List Nat
  tag : Nat
  data : List Nat
  len : Nat
deriving DecidableEq, Repr

/-- Observable outcome of `_send`: the returned status, whether
gnrc_pktbuf_release was called on the input chain, and the frame passed to
the driver's send primitive (none when no transport call was made). -/
structure SendOutcome where
  ret : Int
  released : Bool
  sent : Option SentFrame
deriving DecidableEq, Repr

/-- Total length of `pkt->next`'s segment chain (sum of `payload->size`). -/
def totalPayloadLen : List PayloadSnip → Nat
  | [] => 0
  | p :: rest => p.data.length + totalPayloadLen rest

/-- Concatenation of the payload segments' bytes in chain order. -/
def concatPayload : List PayloadSnip → List Nat
  | [] => []
  | p :: rest => p.data ++ concatPayload rest

/-- The payload-assembly loop of `_send` (lines 83-96): walk the segments,
add each segment's size to the running length, compare against
ESP_NOW_MAX_SIZE before copying, and abort on the first excess segment.
Returns `(some finalLen, bytes)` on completion and `(none, bytesSoFar)` on
abort, where the second component is what was written into `buf.data`. -/
def copyPayload : List PayloadSnip → Nat → List Nat → Option Nat × List Nat
  | [], len, acc => (some len, acc)
  | p :: rest, len, acc =>
    let len1 := len + p.data.length
    if ESP_NOW_MAX_SIZE < len1 then (none, acc)
    else copyPayload rest len1 (acc ++ p.data)

/-- Destination-address resolution of `_send` (lines 54-63): broadcast or
multicast flags force the all-ones address; otherwise the declared
destination-address length must be exactly ESP_NOW_ADDR_LEN; otherwise
resolution fails. -/
def resolveMac (h : GnrcNetifHdr) : Option (List Nat) :=
  if Nat.land h.flags
      (Nat.lor GNRC_NETIF_HDR_FLAGS_BROADCAST GNRC_NETIF_HDR_FLAGS_MULTICAST) ≠ 0 then
    some (List.replicate ESP_NOW_ADDR_LEN 0xff)
  else if h.dst_l2addr_len = ESP_NOW_ADDR_LEN then
    some h.dst_addr
  else
    none

/-- Protocol-tag selection of `_send` (lines 65-73): with the sixlowpan
module compiled in, GNRC_NETTYPE_SIXLOWPAN selects flags byte 1; every
other type selects 0. -/
def tagOfType (sixlowpanModule : Bool) (t : GnrcNettype) : Nat :=
  if sixlowpanModule ∧ t = GnrcNettype.sixlowpan then 1 else 0

/-- The inverse mapping used by `_recv` (lines 129-138): with the
sixlowpan module compiled in, flags byte 1 decodes to
GNRC_NETTYPE_SIXLOWPAN; every other value decodes to GNRC_NETTYPE_UNDEF. -/
def nettypeOfTag (sixlowpanModule : Bool) (tag : Nat) : GnrcNettype :=
  if sixlowpanModule ∧ tag = 1 then GnrcNettype.sixlowpan else GnrcNettype.undef

/-- `_send` (lines 34-112).  `sixlowpanModule` models the
MODULE_GNRC_SIXLOWPAN compile-time switch and `driverSendRet` the status
the driver's send primitive returns.  Result `none` models the undefined
behaviour of reading `payload->type` through the null `pkt->next` at line
65; every defined path yields the outcome record. -/
def sendModel (sixlowpanModule : Bool) (driverSendRet : Int) (pkt : OutPkt) :
    Option SendOutcome :=
  if pkt.type ≠ GnrcNettype.netif then
    some ⟨-EBADMSG, true, none⟩
  else
    match resolveMac pkt.hdr with
    | none => some ⟨-EBADMSG, false, none⟩
    | some mac =>
      match pkt.payloads with
      | [] => none
      | first :: _ =>
        let tag := tagOfType sixlowpanModule first.type
        match copyPayload pkt.payloads 0 [] with
        | (none, _) => some ⟨-EBADMSG, true, none⟩
        | (some plen, bytes) =>
          some ⟨driverSendRet, true,
            some ⟨mac, tag, bytes, ESP_NOW_HEADER_LENGTH + plen % 256⟩⟩

/-- esp_now_pkt_t in its role as the device's reused receive buffer
`rx_pkt`: the buf.hdr.flags byte, the buf.data bytes, the declared length
`len` and the sender address captured into `mac`. -/
structure EspNowPkt where
  hdrFlags : Nat
  bufData : List Nat
  len : Nat
  mac : List Nat
deriving DecidableEq, Repr

/-- The inbound two-snip chain `_recv` returns: the payload snip (its
nettype and copied bytes) whose successor is the synthesized netif header
snip. -/
structure InChain where
  payloadType : GnrcNettype
  payloadData : List Nat
  hdr : GnrcNetifHdr
deriving DecidableEq, Repr

/-- Observable outcome of `_recv`: the returned chain (none = NULL), the
value of `rx_pkt.len` after the call, whether the payload snip was
allocated, and whether it was released again inside `_recv`. -/
structure RecvOutcome where
  result : Option InChain
  rxLen : Nat
  allocatedPayload : Bool
  releasedPayload : Bool
deriving DecidableEq, Repr

/-- `_recv` (lines 114-179).  `recvRes` is what the driver's recv
primitive returned after (on success) filling `rx`; `alloc1Ok` and
`alloc2Ok` model the two gnrc_pktbuf_add calls succeeding; `ownAddr` is
the device's own address and `ifPid` the result of thread_getpid.
`pktLen` reproduces the C unsigned arithmetic `rx_pkt.len -
ESP_NOW_HEADER_LENGTH`. -/
def recvModel (sixlowpanModule : Bool) (ownAddr : List Nat) (ifPid : Int)
    (recvRes : Int) (rx : EspNowPkt) (alloc1Ok alloc2Ok : Bool) : RecvOutcome :=
  if recvRes ≤ 0 then
    ⟨none, rx.len, false, false⟩
  else
    let nettype := nettypeOfTag sixlowpanModule rx.hdrFlags
    let pktLen : Nat :=
      if rx.len < ESP_NOW_HEADER_LENGTH then 2 ^ 32 - (ESP_NOW_HEADER_LENGTH - rx.len)
      else rx.len - ESP_NOW_HEADER_LENGTH
    if ¬ alloc1Ok then
      ⟨none, rx.len, false, false⟩
    else
      let payloadData := rx.bufData.take pktLen
      if ¬ alloc2Ok then
        ⟨none, rx.len, true, true⟩
      else
        let hdr : GnrcNetifHdr :=
          ⟨ESP_NOW_ADDR_LEN, ESP_NOW_ADDR_LEN, 0, ifPid,
            rx.mac.take ESP_NOW_ADDR_LEN, ownAddr.take ESP_NOW_ADDR_LEN⟩
        ⟨some ⟨nettype, payloadData, hdr⟩, 0, true, false⟩

/-! ### Helper lemmas about the payload-assembly loop -/

theorem copyPayload_complete (ps : List PayloadSnip) (len : Nat) (acc : List Nat)
    (h : len + totalPayloadLen ps ≤ ESP_NOW_MAX_SIZE) :
    copyPayload ps len acc = (some (len + totalPayloadLen ps), acc ++ concatPayload ps) := by
  induction ps generalizing len acc with
  | nil => simp [copyPayload, totalPayloadLen, concatPayload]
  | cons p rest ih =>
    have hsum : len + (p.data.length + totalPayloadLen rest) ≤ ESP_NOW_MAX_SIZE := by
      simpa [totalPayloadLen] using h
    have hstep : len + p.data.length ≤ ESP_NOW_MAX_SIZE := by omega
    have hnot : ¬ ESP_NOW_MAX_SIZE < len + p.data.length := not_lt.mpr hstep
    have ih1 := ih (len + p.data.length) (acc ++ p.data) (by omega)
    simp [copyPayload, hnot, ih1, totalPayloadLen, concatPayload, List.append_assoc]
    omega

theorem copyPayload_exceeds (ps : List PayloadSnip) (len : Nat) (acc : List Nat)
    (hlen : len ≤ ESP_NOW_MAX_SIZE)
    (h : ESP_NOW_MAX_SIZE < len + totalPayloadLen ps) :
    (copyPayload ps len acc).fst = none := by
  induction ps generalizing len acc with
  | nil =>
    exfalso
    simp [totalPayloadLen] at h
    omega
  | cons p rest ih =>
    by_cases hc : ESP_NOW_MAX_SIZE < len + p.data.length
    · simp [copyPayload, hc]
    · have hle : len + p.data.length ≤ ESP_NOW_MAX_SIZE := not_lt.mp hc
      have hrest : ESP_NOW_MAX_SIZE < (len + p.data.length) + totalPayloadLen rest := by
        simp [totalPayloadLen] at h
        omega
      simpa [copyPayload, hc] using ih (len + p.data.length) (acc ++ p.data) hle hrest

theorem copyPayload_written_le (ps : List PayloadSnip) (len : Nat) (acc : List Nat)
    (hacc : acc.length = len) (hlen : len ≤ ESP_NOW_MAX_SIZE) :
    (copyPayload ps len acc).snd.length ≤ ESP_NOW_MAX_SIZE := by
  induction ps generalizing len acc with
  | nil => simpa [copyPayload, hacc] using hlen
  | cons p rest ih =>
    by_cases hc : ESP_NOW_MAX_SIZE < len + p.data.length
    · simpa [copyPayload, hc, hacc] using hlen
    · have hle : len + p.data.length ≤ ESP_NOW_MAX_SIZE := not_lt.mp hc
      have hacc1 : (acc ++ p.data).length = len + p.data.length := by
        simp [hacc]
      simpa [copyPayload, hc] using ih (len + p.data.length) (acc ++ p.data) hacc1 hle

theorem concatPayload_length (ps : List PayloadSnip) :
    (concatPayload ps).length = totalPayloadLen ps := by
  induction ps with
  | nil => simp [concatPayload, totalPayloadLen]
  | cons p rest ih => simp [concatPayload, totalPayloadLen, ih]

/-! ### Success-path characterization of the encoder -/

theorem sendModel_success (sixlowpanModule : Bool) (driverSendRet : Int) (pkt : OutPkt)
    (mac : List Nat) (first : PayloadSnip) (rest : List PayloadSnip)
    (ht : pkt.type = GnrcNettype.netif)
    (hm : resolveMac pkt.hdr = some mac)
    (hp : pkt.payloads = first :: rest)
    (hlen : totalPayloadLen pkt.payloads ≤ ESP_NOW_MAX_SIZE) :
    sendModel sixlowpanModule driverSendRet pkt =
      some ⟨driverSendRet, true,
        some ⟨mac, tagOfType sixlowpanModule first.type, concatPayload pkt.payloads,
          ESP_NOW_HEADER_LENGTH + totalPayloadLen pkt.payloads⟩⟩ := by
  have hcopy := copyPayload_complete pkt.payloads 0 [] (by omega)
  have hmod : totalPayloadLen pkt.payloads % 256 = totalPayloadLen pkt.payloads := by
    have h249 : ESP_NOW_MAX_SIZE = 249 := rfl
    exact Nat.mod_eq_of_lt (by omega)
  rw [hp] at hcopy hmod
  rw [hp]
  simp [sendModel, ht, hm, hp, hcopy, hmod]

/-! ### Success-path characterization of the decoder -/

theorem recvModel_success (sixlowpanModule : Bool) (ownAddr : List Nat) (ifPid : Int)
    (res : Int) (rx : EspNowPkt) (hres : 0 < res) (hlen : ESP_NOW_HEADER_LENGTH ≤ rx.len) :
    recvModel sixlowpanModule ownAddr ifPid res rx true true =
      ⟨some ⟨nettypeOfTag sixlowpanModule rx.hdrFlags,
          rx.bufData.take (rx.len - ESP_NOW_HEADER_LENGTH),
          ⟨ESP_NOW_ADDR_LEN, ESP_NOW_ADDR_LEN, 0, ifPid,
            rx.mac.take ESP_NOW_ADDR_LEN, ownAddr.take ESP_NOW_ADDR_LEN⟩⟩,
        0, true, false⟩ := by
  have h1 : ¬ res ≤ 0 := not_le.mpr hres
  have h2 : ¬ rx.len < ESP_NOW_HEADER_LENGTH := not_lt.mpr hlen
  simp [recvModel, h1, h2]

/-! ### Claims -/

/-- Claim C1: the claim asserts that on a chain whose first snip is the
netif metadata type, whose flags are neither broadcast nor multicast and
whose declared destination-address length is not 6, the encoder rejects
with a malformed-input error, releases the whole chain and makes no
transport call.  Evaluating the encoder on such a chain (dst_l2addr_len =
5): it returns -EBADMSG and makes no transport call, but does NOT release
the input chain — the release step the claim (and the spec's ownership
rule) requires is missing on this rejection path. -/
theorem send_wrong_addr_len_skips_release :
    sendModel false 0
      ⟨GnrcNettype.netif,
        ⟨6, 5, 0, 1, [1, 2, 3, 4, 5, 6], [1, 2, 3, 4, 5]⟩,
        [⟨GnrcNettype.undef, [1, 2, 3]⟩]⟩ =
      some ⟨-EBADMSG, false, none⟩ := by
  rfl

/-- Claim C2: the claim asserts rx_pkt.len is 0 after every decode call.
Evaluating the decoder on a received 11-byte frame whose payload-snip
allocation fails: the call returns the empty result but leaves
rx_pkt.len = 11 — the reset to 0 the claim requires only happens on the
success path. -/
theorem recv_alloc_fail_leaves_rx_len :
    (recvModel false [10, 11, 12, 13, 14, 15] 1 11
        ⟨0, [1, 2, 3, 4, 5, 6, 7, 8, 9, 10], 11, [20, 21, 22, 23, 24, 25]⟩
        false false).result = none ∧
    (recvModel false [10, 11, 12, 13, 14, 15] 1 11
        ⟨0, [1, 2, 3, 4, 5, 6, 7, 8, 9, 10], 11, [20, 21, 22, 23, 24, 25]⟩
        false false).rxLen = 11 := by
  constructor <;> rfl

/-- Claim C5: on every chain whose first snip is the netif metadata type,
whose destination resolves, and whose total payload length exceeds
ESP_NOW_MAX_SIZE, the encoder rejects with -EBADMSG, releases the chain,
and makes no transport send call. -/
theorem send_oversize_rejected (sixlowpanModule : Bool) (driverSendRet : Int)
    (pkt : OutPkt) (mac : List Nat)
    (ht : pkt.type = GnrcNettype.netif)
    (hm : resolveMac pkt.hdr = some mac)
    (hbig : ESP_NOW_MAX_SIZE < totalPayloadLen pkt.payloads) :
    sendModel sixlowpanModule driverSendRet pkt = some ⟨-EBADMSG, true, none⟩ := by
  cases hps : pkt.payloads with
  | nil =>
    rw [hps] at hbig
    simp [totalPayloadLen] at hbig
  | cons first rest =>
    have hfst := copyPayload_exceeds pkt.payloads 0 [] (Nat.zero_le _) (by omega)
    rw [hps] at hfst
    rcases hq : copyPayload (first :: rest) 0 [] with ⟨fst, w⟩
    rw [hq] at hfst
    simp at hfst
    subst hfst
    simp [sendModel, ht, hm, hps, hq]

/-- Claim C5 witness: the spec's concrete scenario, three payload segments
of 100, 100 and 60 bytes (total 260 > 249) behind a broadcast-flagged
netif header, is rejected with no transport call. -/
theorem send_oversize_rejected_witness :
    sendModel false 0
      ⟨GnrcNettype.netif,
        ⟨6, 6, 0x80, 1, [0, 0, 0, 0, 0, 0], [0, 0, 0, 0, 0, 0]⟩,
        [⟨GnrcNettype.undef, List.replicate 100 1⟩,
         ⟨GnrcNettype.undef, List.replicate 100 2⟩,
         ⟨GnrcNettype.undef, List.replicate 60 3⟩]⟩ =
      some ⟨-EBADMSG, true, none⟩ := by
  exact send_oversize_rejected false 0 _ (List.replicate ESP_NOW_ADDR_LEN 0xff)
    rfl (by decide) (by decide)

/-- Claim C9: the cumulative-length check of the payload-assembly loop is
performed before each segment's bytes are copied, so on every input chain
the bytes written into buf.data — whether the loop completes or aborts —
never exceed the buffer's declared size ESP_NOW_MAX_SIZE. -/
theorem send_writes_within_capacity (pkt : OutPkt) :
    (copyPayload pkt.payloads 0 []).snd.length ≤ ESP_NOW_MAX_SIZE :=
  copyPayload_written_le pkt.payloads 0 [] rfl (Nat.zero_le _)

/-- Claim C10: on a chain consisting of the metadata snip alone
(pkt->next null) that reaches the tag-selection step (netif type, flags or
address resolving), the encoder dereferences the null successor when
reading its type field — modelled as the undefined-behaviour result. -/
theorem send_lone_metadata_derefs_null (sixlowpanModule : Bool) (driverSendRet : Int)
    (pkt : OutPkt)
    (ht : pkt.type = GnrcNettype.netif)
    (hm : resolveMac pkt.hdr ≠ none)
    (hp : pkt.payloads = []) :
    sendModel sixlowpanModule driverSendRet pkt = none := by
  rcases hmac : resolveMac pkt.hdr with _ | mac
  · exact absurd hmac hm
  · simp [sendModel, ht, hmac, hp]

/-- Claim C10 witness: a chain holding only a broadcast-flagged netif
header and no payload snip drives the encoder into the null dereference. -/
theorem send_lone_metadata_derefs_null_witness :
    sendModel false 0
      ⟨GnrcNettype.netif,
        ⟨6, 6, 0x80, 1, [0, 0, 0, 0, 0, 0], [0, 0, 0, 0, 0, 0]⟩, []⟩ = none := by
  exact send_lone_metadata_derefs_null false 0 _ rfl (by decide) rfl

/-- Claim C3: on every chain whose first snip is the netif metadata type,
whose destination resolves, which has at least one payload snip, and
whose total payload length is within ESP_NOW_MAX_SIZE, the encoder
submits one frame whose declared length is exactly header + total payload
length, whose flags byte is the tag selected from the first payload
snip's type, and whose data bytes are the payload snips' bytes
concatenated in chain order. -/
theorem send_wellformed_produces_frame (sixlowpanModule : Bool) (driverSendRet : Int)
    (pkt : OutPkt) (mac : List Nat) (first : PayloadSnip) (rest : List PayloadSnip)
    (ht : pkt.type = GnrcNettype.netif)
    (hm : resolveMac pkt.hdr = some mac)
    (hp : pkt.payloads = first :: rest)
    (hlen : totalPayloadLen pkt.payloads ≤ ESP_NOW_MAX_SIZE) :
    sendModel sixlowpanModule driverSendRet pkt =
      some ⟨driverSendRet, true,
        some ⟨mac, tagOfType sixlowpanModule first.type, concatPayload pkt.payloads,
          ESP_NOW_HEADER_LENGTH + totalPayloadLen pkt.payloads⟩⟩ :=
  sendModel_success sixlowpanModule driverSendRet pkt mac first rest ht hm hp hlen

/-- Claim C3 witness: the spec's concrete scenario, a unicast netif
header with address aa:bb:cc:dd:ee:ff and one 10-byte sixlowpan payload
snip, yields an 11-byte frame tagged 1. -/
theorem send_wellformed_produces_frame_witness :
    sendModel true 7
      ⟨GnrcNettype.netif,
        ⟨6, 6, 0, 1, [0, 0, 0, 0, 0, 0], [0xaa, 0xbb, 0xcc, 0xdd, 0xee, 0xff]⟩,
        [⟨GnrcNettype.sixlowpan, [1, 2, 3, 4, 5, 6, 7, 8, 9, 10]⟩]⟩ =
      some ⟨7, true,
        some ⟨[0xaa, 0xbb, 0xcc, 0xdd, 0xee, 0xff], 1,
          [1, 2, 3, 4, 5, 6, 7, 8, 9, 10], 11⟩⟩ := by
  have h := send_wellformed_produces_frame true 7
    ⟨GnrcNettype.netif,
      ⟨6, 6, 0, 1, [0, 0, 0, 0, 0, 0], [0xaa, 0xbb, 0xcc, 0xdd, 0xee, 0xff]⟩,
      [⟨GnrcNettype.sixlowpan, [1, 2, 3, 4, 5, 6, 7, 8, 9, 10]⟩]⟩
    [0xaa, 0xbb, 0xcc, 0xdd, 0xee, 0xff]
    ⟨GnrcNettype.sixlowpan, [1, 2, 3, 4, 5, 6, 7, 8, 9, 10]⟩ []
    rfl (by decide) rfl (by decide)
  simpa [tagOfType, concatPayload, totalPayloadLen, ESP_NOW_HEADER_LENGTH] using h

/-- Claim C6: whenever the metadata flags mark broadcast or multicast and
the encoder makes a transport call at all, the destination address of the
submitted frame is the all-ones broadcast address, independent of the
address bytes present in the metadata. -/
theorem send_bcast_flag_forces_allones (sixlowpanModule : Bool) (driverSendRet : Int)
    (pkt : OutPkt) (o : SendOutcome) (f : SentFrame)
    (hbc : Nat.land pkt.hdr.flags
        (Nat.lor GNRC_NETIF_HDR_FLAGS_BROADCAST GNRC_NETIF_HDR_FLAGS_MULTICAST) ≠ 0)
    (ho : sendModel sixlowpanModule driverSendRet pkt = some o)
    (hf : o.sent = some f) :
    f.mac = List.replicate ESP_NOW_ADDR_LEN 0xff := by
  have hm : resolveMac pkt.hdr = some (List.replicate ESP_NOW_ADDR_LEN 0xff) := by
    simp [resolveMac, hbc]
  by_cases ht : pkt.type = GnrcNettype.netif
  · cases hps : pkt.payloads with
    | nil =>
      simp [sendModel, ht, hm, hps] at ho
    | cons first rest =>
      rcases hq : copyPayload (first :: rest) 0 [] with ⟨fst, w⟩
      cases fst with
      | none =>
        simp [sendModel, ht, hm, hps, hq] at ho
        subst ho
        simp at hf
      | some plen =>
        simp [sendModel, ht, hm, hps, hq] at ho
        subst ho
        simp at hf
        subst hf
        rfl
  · simp [sendModel, ht] at ho
    subst ho
    simp at hf

/-- Claim C6 witness: a multicast-flagged chain carrying the unicast
address bytes 01:02:03:04:05:06 still sends to the all-ones address. -/
theorem send_bcast_flag_forces_allones_witness :
    SentFrame.mac ⟨[0xff, 0xff, 0xff, 0xff, 0xff, 0xff], 0, [9], 2⟩ =
      List.replicate ESP_NOW_ADDR_LEN 0xff :=
  send_bcast_flag_forces_allones false 0
    ⟨GnrcNettype.netif,
      ⟨6, 6, 0x40, 1, [0, 0, 0, 0, 0, 0], [1, 2, 3, 4, 5, 6]⟩,
      [⟨GnrcNettype.undef, [9]⟩]⟩
    ⟨0, true, some ⟨[0xff, 0xff, 0xff, 0xff, 0xff, 0xff], 0, [9], 2⟩⟩
    ⟨[0xff, 0xff, 0xff, 0xff, 0xff, 0xff], 0, [9], 2⟩
    (by decide) (by decide) rfl

/-- Claim C4: round-trip.  Encoding a well-formed chain and feeding the
exact frame the transport was given back through the decoder, with sender
address `senderAddr` captured alongside it, yields a chain whose payload
snip's bytes are the original concatenated payload and whose metadata
snip's source address is `senderAddr`. -/
theorem send_recv_roundtrip (sixlowpanModule : Bool) (driverSendRet : Int) (pkt : OutPkt)
    (mac senderAddr ownAddr : List Nat) (ifPid res : Int)
    (first : PayloadSnip) (rest : List PayloadSnip) (f : SentFrame)
    (ht : pkt.type = GnrcNettype.netif)
    (hm : resolveMac pkt.hdr = some mac)
    (hp : pkt.payloads = first :: rest)
    (hlen : totalPayloadLen pkt.payloads ≤ ESP_NOW_MAX_SIZE)
    (hsend : sendModel sixlowpanModule driverSendRet pkt =
      some ⟨driverSendRet, true, some f⟩)
    (ha : senderAddr.length = ESP_NOW_ADDR_LEN)
    (hres : 0 < res) :
    ((recvModel sixlowpanModule ownAddr ifPid res ⟨f.tag, f.data, f.len, senderAddr⟩
        true true).result.map InChain.payloadData = some (concatPayload pkt.payloads)) ∧
    ((recvModel sixlowpanModule ownAddr ifPid res ⟨f.tag, f.data, f.len, senderAddr⟩
        true true).result.map (fun c => c.hdr.src_addr) = some senderAddr) := by
  have hS := sendModel_success sixlowpanModule driverSendRet pkt mac first rest ht hm hp hlen
  rw [hS] at hsend
  simp only [Option.some.injEq, SendOutcome.mk.injEq, true_and] at hsend
  have hR := recvModel_success sixlowpanModule ownAddr ifPid res
      ⟨f.tag, f.data, f.len, senderAddr⟩ hres
      (by rw [← hsend]; exact Nat.le_add_right _ _)
  rw [hR]
  rw [← hsend]
  have htake : (concatPayload pkt.payloads).take
      (ESP_NOW_HEADER_LENGTH + totalPayloadLen pkt.payloads - ESP_NOW_HEADER_LENGTH) =
      concatPayload pkt.payloads := by
    rw [Nat.add_sub_cancel_left, ← concatPayload_length, List.take_length]
  have haddr : senderAddr.take ESP_NOW_ADDR_LEN = senderAddr :=
    List.take_of_length_le (le_of_eq ha)
  constructor
  · simp [htake, concatPayload_length]
  · simp [haddr]

/-- Claim C4 witness: a broadcast chain with one 3-byte payload round
trips through the decoder with sender address 01:02:03:04:05:06. -/
theorem send_recv_roundtrip_witness :
    ((recvModel false [9, 9, 9, 9, 9, 9] 3 4 ⟨0, [5, 6, 7], 4, [1, 2, 3, 4, 5, 6]⟩
        true true).result.map InChain.payloadData =
      some (concatPayload [⟨GnrcNettype.undef, [5, 6, 7]⟩])) ∧
    ((recvModel false [9, 9, 9, 9, 9, 9] 3 4 ⟨0, [5, 6, 7], 4, [1, 2, 3, 4, 5, 6]⟩
        true true).result.map (fun c => c.hdr.src_addr) = some [1, 2, 3, 4, 5, 6]) :=
  send_recv_roundtrip false 0
    ⟨GnrcNettype.netif,
      ⟨6, 6, 0x80, 1, [0, 0, 0, 0, 0, 0], [0, 0, 0, 0, 0, 0]⟩,
      [⟨GnrcNettype.undef, [5, 6, 7]⟩]⟩
    (List.replicate ESP_NOW_ADDR_LEN 0xff) [1, 2, 3, 4, 5, 6] [9, 9, 9, 9, 9, 9] 3 4
    ⟨GnrcNettype.undef, [5, 6, 7]⟩ []
    ⟨List.replicate ESP_NOW_ADDR_LEN 0xff, 0, [5, 6, 7], 4⟩
    rfl (by decide) rfl (by decide) (by decide) (by decide) (by decide)

/-- Claim C7: when the netif-header snip allocation fails after the
payload snip was allocated, the decoder releases the payload snip and
returns the empty result. -/
theorem recv_hdr_alloc_fail_releases_payload (sixlowpanModule : Bool) (ownAddr : List Nat)
    (ifPid res : Int) (rx : EspNowPkt) (hres : 0 < res) :
    (recvModel sixlowpanModule ownAddr ifPid res rx true false).result = none ∧
    (recvModel sixlowpanModule ownAddr ifPid res rx true false).allocatedPayload = true ∧
    (recvModel sixlowpanModule ownAddr ifPid res rx true false).releasedPayload = true := by
  have h1 : ¬ res ≤ 0 := not_le.mpr hres
  refine ⟨?_, ?_, ?_⟩ <;> simp [recvModel, h1]

/-- Claim C7 witness: a received 4-byte frame whose header-snip
allocation fails yields the empty result with the payload snip released. -/
theorem recv_hdr_alloc_fail_releases_payload_witness :
    (recvModel false [9, 9, 9, 9, 9, 9] 2 5 ⟨0, [1, 2, 3], 4, [1, 2, 3, 4, 5, 6]⟩
        true false).result = none ∧
    (recvModel false [9, 9, 9, 9, 9, 9] 2 5 ⟨0, [1, 2, 3], 4, [1, 2, 3, 4, 5, 6]⟩
        true false).allocatedPayload = true ∧
    (recvModel false [9, 9, 9, 9, 9, 9] 2 5 ⟨0, [1, 2, 3], 4, [1, 2, 3, 4, 5, 6]⟩
        true false).releasedPayload = true :=
  recv_hdr_alloc_fail_releases_payload false [9, 9, 9, 9, 9, 9] 2 5
    ⟨0, [1, 2, 3], 4, [1, 2, 3, 4, 5, 6]⟩ (by decide)

/-- Claim C8: a received frame whose flags byte is not a recognized tag
value decodes to a payload snip carrying GNRC_NETTYPE_UNDEF rather than
to a failure or an empty result. -/
theorem recv_unknown_tag_yields_undef (sixlowpanModule : Bool) (ownAddr : List Nat)
    (ifPid res : Int) (rx : EspNowPkt)
    (hres : 0 < res)
    (htag : ¬ (sixlowpanModule = true ∧ rx.hdrFlags = 1)) :
    (recvModel sixlowpanModule ownAddr ifPid res rx true true).result.map
        InChain.payloadType = some GnrcNettype.undef := by
  have h1 : ¬ res ≤ 0 := not_le.mpr hres
  have hnt : nettypeOfTag sixlowpanModule rx.hdrFlags = GnrcNettype.undef := by
    simp [nettypeOfTag, htag]
  simp [recvModel, h1, hnt]

/-- Claim C8 witness: with the sixlowpan module compiled in, a frame with
the unrecognized flags byte 7 decodes to an undef-typed payload snip. -/
theorem recv_unknown_tag_yields_undef_witness :
    (recvModel true [9, 9, 9, 9, 9, 9] 2 3 ⟨7, [1, 2], 3, [1, 2, 3, 4, 5, 6]⟩
        true true).result.map InChain.payloadType = some GnrcNettype.undef :=
  recv_unknown_tag_yields_undef true [9, 9, 9, 9, 9, 9] 2 3
    ⟨7, [1, 2], 3, [1, 2, 3, 4, 5, 6]⟩ (by decide) (by decide)
